import Mathlib

/-!
Verification development for the session bridge of the zed-claude-acp
repository (src/agent.ts and its helpers). The TypeScript source is
embedded shallowly: pure helpers become Lean functions, the stateful
prompt / stream-draining / reaper logic becomes explicit state passing
over a session-state structure, and asynchronous race outcomes become an
explicit outcome parameter. JavaScript strings are modelled as lists of
UTF-16 code units where the byte-level behaviour matters
(Buffer.byteLength and String.prototype.slice in truncateLargeText);
elsewhere Lean String is used. Localized message templates (the ko/en
dictionaries) are pure presentation; a rendered template is represented
by its dictionary key together with its arguments.
-/

namespace ZedClaudeAcp

/-- A JavaScript string viewed as its sequence of UTF-16 code units,
as used by String.prototype.length and String.prototype.slice. -/
abbrev JsStr := List Nat

/-- UTF-16 view of a Lean string literal. Faithful for strings whose
characters are all in the Basic Multilingual Plane, which covers every
literal used by the agent source. -/
def jstr (s : String) : JsStr := s.data.map Char.toNat

/-- Number of UTF-8 bytes Node Buffer.byteLength assigns to a single
UTF-16 code unit that does not combine into a surrogate pair.  A lone
surrogate is encoded as the 3-byte replacement character. -/
def utf8UnitLen (u : Nat) : Nat :=
  if u < 0x80 then 1 else if u < 0x800 then 2 else 3

/-- True for a high-surrogate code unit. -/
def isHighSurrogate (u : Nat) : Bool := 0xD800 ≤ u && u < 0xDC00

/-- True for a low-surrogate code unit. -/
def isLowSurrogate (u : Nat) : Bool := 0xDC00 ≤ u && u < 0xE000

/-- Buffer.byteLength(s, utf8) over the UTF-16 code units of s: a
matched surrogate pair encodes to 4 bytes, every other unit encodes on
its own. -/
def utf8Len : JsStr → Nat
  | [] => 0
  | [u] => utf8UnitLen u
  | u :: v :: rest =>
    if isHighSurrogate u && isLowSurrogate v then 4 + utf8Len rest
    else utf8UnitLen u + utf8Len (v :: rest)

/-- Math.floor(e * 0.95) of the source.  For the index range reachable
here the double computation agrees with exact rational arithmetic, so it
is modelled as natural floor division. -/
def floor95 (e : Nat) : Nat := e * 95 / 100

/-- The shrinking search of truncateLargeText, written with explicit
fuel so that it is structural.  The source loop strictly decreases the
cut index on every iteration and stops at index 0 at the latest, so fuel
equal to the starting index is exact: the fueled function returns the
same index as the unbounded while loop. -/
def truncLoopFuel (s : JsStr) (maxBytes : Nat) : Nat → Nat → Nat
  | 0, e => e
  | fuel + 1, e =>
    if maxBytes < utf8Len (s.take e) ∧ 0 < e then
      truncLoopFuel s maxBytes fuel (floor95 e)
    else e

/-- Final cut index chosen by the while loop of truncateLargeText. -/
def truncEnd (s : JsStr) (maxBytes : Nat) : Nat :=
  truncLoopFuel s maxBytes s.length s.length

/-- truncateLargeText from src/agent.ts: return the input unchanged when
it fits the byte budget, otherwise cut at the index found by the 5
percent shrinking search and append the human-readable suffix naming how
many bytes were removed. -/
def truncateLargeText (input : JsStr) (maxBytes : Nat) : JsStr :=
  if utf8Len input ≤ maxBytes then input
  else
    let kept := input.take (truncEnd input maxBytes)
    kept ++ jstr "\n\n… (" ++ jstr (toString (utf8Len input - utf8Len kept))
      ++ jstr " bytes truncated)"

/-- Lowercasing as used by toLowerCase in the source; faithful for the
ASCII tool names and error messages the agent compares. -/
def lowerStr (s : String) : String := String.mk (s.data.map Char.toLower)

/-- Index of the first occurrence of pat in s (indexOf over characters),
none when pat does not occur. -/
def firstIdx (s pat : String) : Option Nat :=
  (List.range (s.data.length + 1)).find? (fun i => pat.data.isPrefixOf (s.data.drop i))

/-- Substring test: includes(pat) of the source. -/
def strContains (s pat : String) : Bool := (firstIdx s pat).isSome

/-- The four permission modes of the agent. -/
inductive PermissionMode where
  | default
  | acceptEdits
  | bypassPermissions
  | plan
deriving DecidableEq

/-- Name of a permission mode, as interpolated into the mode-switch
notification. -/
def modeName : PermissionMode → String
  | PermissionMode.default => "default"
  | PermissionMode.acceptEdits => "acceptEdits"
  | PermissionMode.bypassPermissions => "bypassPermissions"
  | PermissionMode.plan => "plan"

/-- The literal in-band marker for each mode, from the README. -/
def markerOf : PermissionMode → String
  | PermissionMode.default => "[ACP:PERMISSION:DEFAULT]"
  | PermissionMode.acceptEdits => "[ACP:PERMISSION:ACCEPT_EDITS]"
  | PermissionMode.bypassPermissions => "[ACP:PERMISSION:BYPASS]"
  | PermissionMode.plan => "[ACP:PERMISSION:PLAN]"

/-- The recognized markers paired with their modes. -/
def markerList : List (String × PermissionMode) :=
  [(markerOf PermissionMode.acceptEdits, PermissionMode.acceptEdits),
   (markerOf PermissionMode.bypassPermissions, PermissionMode.bypassPermissions),
   (markerOf PermissionMode.default, PermissionMode.default),
   (markerOf PermissionMode.plan, PermissionMode.plan)]

/-- Modelled from the spec: detectPermissionMode lives in src/types.ts,
which is not part of the provided sources.  Per spec section 4.2 it
scans the prompt text for the four literal markers and the marker
occurring earliest in the text wins. -/
def detectPermissionMode (text : String) : Option PermissionMode :=
  let cands := markerList.filterMap
    (fun p => (firstIdx text p.1).map (fun i => (i, p.2)))
  (cands.foldl
    (fun best c =>
      match best with
      | none => some c
      | some b => if c.1 < b.1 then some c else some b)
    none).map (fun p => p.2)

/-- Tool kinds of the protocol. -/
inductive ToolKind where
  | read | edit | delete | move | search | execute | think | fetch | other
deriving DecidableEq

/-- Modelled from the spec: mapToolKind lives in src/types.ts, which is
not part of the provided sources.  Per spec section 4.3 it maps a tool
name to a kind by case-insensitive substring rules, first matching rule
winning. -/
def mapToolKind (name : String) : ToolKind :=
  let n := lowerStr name
  if strContains n "read" || strContains n "view" || strContains n "get" then ToolKind.read
  else if strContains n "write" || strContains n "create" || strContains n "update" || strContains n "edit" then ToolKind.edit
  else if strContains n "delete" || strContains n "remove" then ToolKind.delete
  else if strContains n "move" || strContains n "rename" then ToolKind.move
  else if strContains n "search" || strContains n "find" || strContains n "grep" then ToolKind.search
  else if strContains n "run" || strContains n "execute" || strContains n "bash" then ToolKind.execute
  else if strContains n "think" || strContains n "plan" || strContains n "todo" then ToolKind.think
  else if strContains n "fetch" || strContains n "download" || strContains n "web" then ToolKind.fetch
  else ToolKind.other

/-- Per-session state of the agent.  pendingPrompt abstracts the held
stream iterator to whether one is held; abortController abstracts the
controller to none (null) or some aborted-flag of its signal. -/
structure SessionState where
  pendingPrompt : Bool
  abortController : Option Bool
  claudeSessionId : Option String
  permissionMode : PermissionMode
  messageCount : Nat
  createdAt : Int
  lastActiveAt : Int
deriving DecidableEq

/-- cancelCurrentPrompt from src/agent.ts: abort the controller when one
is installed, then close and release the pending stream iterator. -/
def cancelCurrentPrompt (s : SessionState) : SessionState :=
  let s1 := match s.abortController with
    | some _ => { s with abortController := some true }
    | none => s
  if s1.pendingPrompt then { s1 with pendingPrompt := false } else s1

/-- An Error value as observed by the catch block: whether it is an
instance of the TimeoutError class of this module, its name, and its
message. -/
structure ErrorInfo where
  isTimeoutInstance : Bool
  name : String
  message : String
deriving DecidableEq

/-- isAbortError from src/agent.ts: name equals AbortError, or the
lowercased message contains the substring abort. -/
def isAbortError (e : ErrorInfo) : Bool :=
  e.name == "AbortError" || strContains (lowerStr e.message) "abort"

/-- The TimeoutError thrown when the timer wins the race. -/
def timeoutErrorInfo (ms : Nat) : ErrorInfo :=
  { isTimeoutInstance := true
    name := "TimeoutError"
    message := "Timed out after " ++ toString ms ++ " ms" }

/-- One todo item of a TodoWrite invocation. -/
structure Todo where
  content : String
  status : String
deriving DecidableEq

/-- A fragment of outgoing text.  Upstream text is carried literally;
a localized template rendering is represented by its dictionary key and
its arguments; the todo-progress block and the tool-start banner are
pure functions of their inputs and are represented by those inputs. -/
inductive TextPiece where
  | raw (text : String)
  | tpl (key : String) (args : List JsStr)
  | todoRender (todos : List Todo)
  | toolStart (name : String) (input : List (String × String))
deriving DecidableEq

/-- Status carried by a tool-call update. -/
inductive ToolStatus where
  | pending | completed | failed
deriving DecidableEq

/-- A protocol session update sent through client.sessionUpdate. -/
inductive ProtocolUpdate where
  | agentMessageChunk (pieces : List TextPiece)
  | toolCall (toolCallId : String) (title : String) (kind : ToolKind)
      (rawInput : List (String × String))
  | toolCallUpdate (toolCallId : String) (status : ToolStatus)
      (content : List TextPiece) (rawOutput : Option JsStr)
deriving DecidableEq

/-- One effect of a message handler: a direct protocol update, or an
append to the per-session text buffer (sendTextContent). -/
inductive Step where
  | emit (u : ProtocolUpdate)
  | buffer (p : TextPiece)
deriving DecidableEq

/-- A content block of an upstream user message; tool_use_id is the
empty string when absent (falsy in the source guard). -/
inductive UserBlock where
  | toolResult (tool_use_id : String) (content : Option String)
  | otherBlock
deriving DecidableEq

/-- A content block of an upstream assistant message; id and name are
the empty string when absent. -/
inductive AssistantBlock where
  | textBlock (text : String)
  | toolUse (id : String) (name : String) (input : List (String × String))
      (todos : Option (List Todo))
  | otherBlock
deriving DecidableEq

/-- A streaming sub-protocol event. -/
inductive StreamEv where
  | contentBlockStart (blockType : String) (text : Option String)
  | contentBlockDelta (deltaType : String) (text : Option String)
  | contentBlockStop
  | otherEvent
deriving DecidableEq

/-- The discriminated upstream message kinds handled by
handleClaudeMessage. -/
inductive MsgKind where
  | system
  | user (blocks : List UserBlock)
  | assistant (blocks : Option (List AssistantBlock)) (text : Option String)
  | result (r : String)
  | textMsg (text : Option String)
  | toolUseStart (id : String) (tool_name : String)
      (input : List (String × String)) (todos : Option (List Todo))
  | toolUseOutput (id : String) (output : Option String)
  | toolUseError (id : String) (error : Option String)
  | streamEvent (ev : StreamEv)
  | unknownKind (ty : String)
deriving DecidableEq

/-- An upstream message together with its optional session id. -/
structure ClaudeMsg where
  kind : MsgKind
  session_id : Option String
deriving DecidableEq

/-- sendTextContent from src/agent.ts: empty text is dropped, anything
else goes to the per-session buffer. -/
def sendTextSteps (text : String) : List Step :=
  if text = "" then [] else [Step.buffer (TextPiece.raw text)]

/-- Effects of one assistant content block, from
handleAssistantMessage and handleToolUseInAssistant. -/
def assistantBlockSteps (b : AssistantBlock) : List Step :=
  match b with
  | AssistantBlock.textBlock t => sendTextSteps t
  | AssistantBlock.toolUse id name input todos =>
    if id ≠ "" ∧ name ≠ "" then
      [Step.emit (ProtocolUpdate.toolCall id name (mapToolKind name) input)]
        ++ (match todos with
            | some ts => if name = "TodoWrite" then [Step.buffer (TextPiece.todoRender ts)] else []
            | none => [])
    else []
  | AssistantBlock.otherBlock => []

/-- Effects of one user content block, from handleUserMessage. -/
def userBlockSteps (b : UserBlock) : List Step :=
  match b with
  | UserBlock.toolResult tid content =>
    if tid ≠ "" then
      [Step.emit (ProtocolUpdate.toolCallUpdate tid ToolStatus.completed
        [TextPiece.raw (content.getD "")]
        (match content with
         | some c => if c ≠ "" then some (jstr c) else none
         | none => none))]
    else []
  | UserBlock.otherBlock => []

/-- handleClaudeMessage from src/agent.ts: dispatch one upstream message
kind to its effects. -/
def handleClaudeMessage (maxBytes : Nat) (m : MsgKind) : List Step :=
  match m with
  | MsgKind.system => []
  | MsgKind.user blocks => blocks.foldr (fun b acc => userBlockSteps b ++ acc) []
  | MsgKind.assistant blocks text =>
    (match blocks with
     | some bs => bs.foldr (fun b acc => assistantBlockSteps b ++ acc) []
     | none => sendTextSteps (text.getD ""))
  | MsgKind.result _ => []
  | MsgKind.textMsg text => sendTextSteps (text.getD "")
  | MsgKind.toolUseStart id tool_name input todos =>
    [Step.buffer (TextPiece.toolStart tool_name input),
     Step.emit (ProtocolUpdate.toolCall id tool_name (mapToolKind tool_name) input)]
      ++ (match todos with
          | some ts => if tool_name = "TodoWrite" then [Step.buffer (TextPiece.todoRender ts)] else []
          | none => [])
  | MsgKind.toolUseOutput id output =>
    let o := output.getD ""
    let safe := truncateLargeText (jstr o) maxBytes
    [Step.emit (ProtocolUpdate.toolCallUpdate id ToolStatus.completed
      [TextPiece.tpl "tool_completed" [safe]]
      (if o ≠ "" then some safe else none))]
  | MsgKind.toolUseError id error =>
    let e := error.getD "Unknown error"
    let safe := truncateLargeText (jstr e) maxBytes
    [Step.emit (ProtocolUpdate.toolCallUpdate id ToolStatus.failed
      [TextPiece.tpl "tool_error" [safe]] (some safe))]
  | MsgKind.streamEvent ev =>
    (match ev with
     | StreamEv.contentBlockStart blockType text =>
       if blockType = "text" then sendTextSteps (text.getD "") else []
     | StreamEv.contentBlockDelta deltaType text =>
       if deltaType = "text_delta" then sendTextSteps (text.getD "") else []
     | StreamEv.contentBlockStop => []
     | StreamEv.otherEvent => [])
  | MsgKind.unknownKind _ => []

/-- State threaded through the draining of one message stream: the
session, the pending text buffer (as ordered pieces), and the protocol
updates emitted so far, in emission order. -/
structure StreamState where
  session : SessionState
  buf : List TextPiece
  updates : List ProtocolUpdate
deriving DecidableEq

/-- Interpret the effects of one handler invocation. -/
def applySteps (st : StreamState) (steps : List Step) : StreamState :=
  steps.foldl
    (fun st step =>
      match step with
      | Step.emit u => { st with updates := st.updates ++ [u] }
      | Step.buffer p => { st with buf := st.buf ++ [p] })
    st

/-- One iteration body of the for-await loop in processMessageStream:
bump the message counters, adopt a changed upstream session id, then run
the message handler. -/
def stepMessage (maxBytes : Nat) (st : StreamState) (m : ClaudeMsg) : StreamState :=
  let s0 := { st.session with messageCount := st.session.messageCount + 1 }
  let s1 := match m.session_id with
    | some sid =>
      if s0.claudeSessionId ≠ some sid then { s0 with claudeSessionId := some sid } else s0
    | none => s0
  applySteps { st with session := s1 } (handleClaudeMessage maxBytes m.kind)

/-- The for-await loop of processMessageStream: before processing the
element at position i the abort signal is read (sig i); when it is
observed fired the loop breaks immediately. -/
def drainLoop (maxBytes : Nat) (sig : Nat → Bool) : Nat → List ClaudeMsg → StreamState → StreamState
  | _, [], st => st
  | i, m :: rest, st =>
    if sig i then st
    else drainLoop maxBytes sig (i + 1) rest (stepMessage maxBytes st m)

/-- Number of elements the loop processes: the position of the first
observed firing of the signal, scanning n positions from i. -/
def stopIdx (sig : Nat → Bool) (i n : Nat) : Nat :=
  match n with
  | 0 => 0
  | Nat.succ n2 => if sig i then 0 else stopIdx sig (i + 1) n2 + 1

/-- flushTextBuffer from src/agent.ts, on the explicit buffer state: a
non-empty buffer is sent as one agent_message_chunk and cleared.  Pieces
are only ever appended non-empty, so list emptiness coincides with
string emptiness of the accumulated payload. -/
def flushTextBufferSt (st : StreamState) : StreamState :=
  if st.buf = [] then st
  else { st with buf := [], updates := st.updates ++ [ProtocolUpdate.agentMessageChunk st.buf] }

/-- processMessageStream from src/agent.ts: drain the stream under the
abort signal, then flush any buffered text.  Timer-driven intermediate
flushes are asynchronous real-time behaviour and are not modelled; the
buffer is flushed once at the end as in the source body. -/
def processMessageStream (maxBytes : Nat) (sig : Nat → Bool) (msgs : List ClaudeMsg)
    (s : SessionState) (buf : List TextPiece) : StreamState :=
  flushTextBufferSt (drainLoop maxBytes sig 0 msgs { session := s, buf := buf, updates := [] })

/-- The permission-mode switch branch of prompt (src/agent.ts lines
207 to 218): a bypass request with bypass disabled leaves the mode
unchanged and buffers the blocked notice; any other detected mode is
applied and the switch notice is buffered. -/
def applyModeSwitch (enableBypass : Bool) (m : PermissionMode) (s : SessionState) :
    SessionState × List TextPiece :=
  if m = PermissionMode.bypassPermissions ∧ enableBypass = false then
    (s, [TextPiece.tpl "bypass_blocked" []])
  else
    ({ s with permissionMode := m }, [TextPiece.tpl "mode_switched" [jstr (modeName m)]])

/-- Detection plus switch, as executed inside prompt. -/
def modeSwitchStep (enableBypass : Bool) (dm : Option PermissionMode) (s : SessionState) :
    SessionState × List TextPiece :=
  match dm with
  | none => (s, [])
  | some m => applyModeSwitch enableBypass m s

/-- sendErrorMessage from src/agent.ts: the error message is truncated
to the tool-output byte cap and sent directly (not buffered) as an
agent_message_chunk rendering the system_error template. -/
def sysErrorUpdate (maxBytes : Nat) (e : ErrorInfo) : ProtocolUpdate :=
  ProtocolUpdate.agentMessageChunk
    [TextPiece.tpl "system_error" [truncateLargeText (jstr e.message) maxBytes]]

/-- Terminal stop reasons of prompt. -/
inductive StopReason where
  | end_turn | cancelled
deriving DecidableEq

/-- The catch block of prompt (src/agent.ts lines 265 to 288).  The
controller installed at the start of this prompt is still present when
the catch runs, and the first statement aborts it when not yet aborted,
so its signal reads aborted in the subsequent condition.  A TimeoutError
is rendered once in its dedicated branch; then the abort check decides
between the cancelled return and the generic render-and-end_turn path. -/
def promptCatch (maxBytes : Nat) (e : ErrorInfo) : StopReason × List ProtocolUpdate :=
  let firstSend := if e.isTimeoutInstance then [sysErrorUpdate maxBytes e] else []
  if isAbortError e then (StopReason.cancelled, firstSend)
  else (StopReason.end_turn, firstSend ++ [sysErrorUpdate maxBytes e])

/-- How the race between query processing and the timeout settles for
one prompt call: processing completes (carrying the drained messages),
the timer fires first, or processing rejects first with an error. -/
inductive PromptOutcome where
  | success (msgs : List ClaudeMsg)
  | timeout
  | failure (e : ErrorInfo)

/-- Configuration of the agent relevant to prompt. -/
structure PromptConfig where
  showThinking : Bool
  enableBypass : Bool
  timeoutMs : Nat
  maxToolOutputBytes : Nat

/-- Observable result of one prompt call: the final session state, the
stop reason, the direct updates emitted, the remaining text buffer,
whether clearTimeout ran on the timer, and whether the abort signal of
the query ended up fired. -/
structure PromptResult where
  session : SessionState
  stopReason : StopReason
  updates : List ProtocolUpdate
  buf : List TextPiece
  timerCleared : Bool
  queryAborted : Bool

/-- Body of prompt after the initial cancelCurrentPrompt call
(src/agent.ts lines 171 to 289): optional thinking banner, fresh
controller and activity timestamp, marker detection and switch, then the
race; every branch ends in the finally block clearing pendingPrompt and
abortController.  Partial stream output preceding a rejection is not
replayed in the failure branches; it is irrelevant to the properties
stated below. -/
def promptBody (cfg : PromptConfig) (now : Int) (text : String) (s1 : SessionState)
    (buf : List TextPiece) (out : PromptOutcome) (sig : Nat → Bool) : PromptResult :=
  let buf1 := if cfg.showThinking then buf ++ [TextPiece.tpl "thinking" []] else buf
  let s2 : SessionState := { s1 with abortController := some false, lastActiveAt := now }
  let ms := modeSwitchStep cfg.enableBypass (detectPermissionMode text) s2
  let buf2 := buf1 ++ ms.2
  match out with
  | PromptOutcome.success msgs =>
    let st := processMessageStream cfg.maxToolOutputBytes sig msgs
      { ms.1 with pendingPrompt := true } buf2
    { session := { st.session with pendingPrompt := false, abortController := none }
      stopReason := StopReason.end_turn
      updates := st.updates
      buf := st.buf
      timerCleared := true
      queryAborted := false }
  | PromptOutcome.timeout =>
    let pc := promptCatch cfg.maxToolOutputBytes (timeoutErrorInfo cfg.timeoutMs)
    { session := { ms.1 with pendingPrompt := false, abortController := none }
      stopReason := pc.1
      updates := pc.2
      buf := buf2
      timerCleared := false
      queryAborted := true }
  | PromptOutcome.failure e =>
    let pc := promptCatch cfg.maxToolOutputBytes e
    { session := { ms.1 with pendingPrompt := false, abortController := none }
      stopReason := pc.1
      updates := pc.2
      buf := buf2
      timerCleared := false
      queryAborted := true }

/-- prompt from src/agent.ts for an existing session: any ongoing prompt
of the session is cancelled and released first, then the body runs. -/
def promptRun (cfg : PromptConfig) (now : Int) (text : String) (s : SessionState)
    (buf : List TextPiece) (out : PromptOutcome) (sig : Nat → Bool) : PromptResult :=
  promptBody cfg now text (cancelCurrentPrompt s) buf out sig

/-- parseTimeout from src/agent.ts.  The input is the environment value
after Number conversion: none for an absent or empty variable, some none
for a non-finite conversion, some (some n) for the finite value n. -/
def parseTimeout (input : Option (Option ℚ)) : ℚ :=
  match input with
  | none => 60000
  | some none => 60000
  | some (some n) => if n < 1000 then 60000 else min n 600000

/-- Whether a session has an active query, as tested by the reaper. -/
def isActiveQuery (s : SessionState) : Bool :=
  s.pendingPrompt || s.abortController.isSome

/-- The per-session eviction test of the GC sweep in startSessionGc:
no active query and idle strictly longer than the TTL. -/
def gcShouldRemove (ttl now : Int) (s : SessionState) : Bool :=
  !isActiveQuery s && decide (ttl < now - s.lastActiveAt)

/-- Observable actions of one GC sweep. -/
inductive GcAction where
  | flushBuffer (id : String)
  | removeSession (id : String)
deriving DecidableEq

/-- One sweep of the interval callback in startSessionGc: each evicted
session has its text buffer flushed and is then removed, in iteration
order. -/
def gcSweepActions (ttl now : Int) (sessions : List (String × SessionState)) : List GcAction :=
  (sessions.map
    (fun p =>
      if gcShouldRemove ttl now p.2 then
        [GcAction.flushBuffer p.1, GcAction.removeSession p.1]
      else [])).flatten

/-- The cut index returned by the fueled search always lands on a prefix
within the byte budget, provided the fuel dominates the index. -/
theorem truncLoopFuel_le (s : JsStr) (maxBytes : Nat) :
    ∀ fuel e, e ≤ fuel → utf8Len (s.take (truncLoopFuel s maxBytes fuel e)) ≤ maxBytes := by
  intro fuel
  induction fuel with
  | zero =>
    intro e he
    interval_cases e
    simp [truncLoopFuel, utf8Len]
  | succ n ih =>
    intro e he
    rw [truncLoopFuel]
    by_cases h : maxBytes < utf8Len (s.take e) ∧ 0 < e
    · rw [if_pos h]
      apply ih
      have hlt : floor95 e < e := by
        have h100 : 0 < 100 := by norm_num
        rw [floor95, Nat.div_lt_iff_lt_mul h100]
        have := h.2
        omega
      omega
    · rw [if_neg h]
      rcases Nat.lt_or_ge maxBytes (utf8Len (s.take e)) with hgt | hle
      · have he0 : e = 0 := by
          by_contra hne
          exact h ⟨hgt, Nat.pos_of_ne_zero hne⟩
        subst he0
        simp [utf8Len] at hgt
      · exact hle

/-- The kept prefix of a truncated string fits the byte budget. -/
theorem truncEnd_le (s : JsStr) (maxBytes : Nat) :
    utf8Len (s.take (truncEnd s maxBytes)) ≤ maxBytes :=
  truncLoopFuel_le s maxBytes s.length s.length (Nat.le_refl _)

/-- Text that already fits the byte budget is returned unchanged. -/
theorem truncateLargeText_of_le (s : JsStr) (maxBytes : Nat)
    (h : utf8Len s ≤ maxBytes) : truncateLargeText s maxBytes = s := by
  unfold truncateLargeText
  rw [if_pos h]

/-- Closed form of cancelCurrentPrompt: the stream handle is released
and an installed controller is aborted. -/
theorem cancelCurrentPrompt_eq (s : SessionState) :
    cancelCurrentPrompt s
      = { s with pendingPrompt := false,
                 abortController := s.abortController.map (fun _ => true) } := by
  obtain ⟨pp, ac, a, b, c, d, e⟩ := s
  cases ac <;> cases pp <;> rfl

/-- Cancelling twice equals cancelling once. -/
theorem cancelCurrentPrompt_idem (s : SessionState) :
    cancelCurrentPrompt (cancelCurrentPrompt s) = cancelCurrentPrompt s := by
  obtain ⟨pp, ac, a, b, c, d, e⟩ := s
  cases ac <;> cases pp <;> rfl

/-- C5 counterexample: truncateLargeText violates the claimed contract.
On twelve ASCII bytes with budget 10 the result is 35 bytes long, so the
output is not within the budget; on one hundred ASCII bytes with budget
99 the cut index is 95 although the 99-byte prefix fits, so the kept
portion is not the longest fitting prefix; and on a string of surrogate
pairs with budget 36 the kept portion ends in the lone high surrogate
0xD834 (the next unit is the newline of the suffix), so a multi-byte
character is split. -/
theorem C5_counterexample :
    utf8Len (truncateLargeText (List.replicate 12 97) 10) = 35
    ∧ truncEnd (List.replicate 100 97) 99 = 95
    ∧ utf8Len ((List.replicate 100 97).take 99) = 99
    ∧ (truncateLargeText (97 :: (List.replicate 10 ([0xD834, 0xDD1E] : List Nat)).flatten) 36)[17]?
        = some 0xD834
    ∧ (truncateLargeText (97 :: (List.replicate 10 ([0xD834, 0xDD1E] : List Nat)).flatten) 36)[18]?
        = some 10 := by
  decide

/-- C5 amended: for input exceeding the budget N, the result is the kept
prefix followed by the byte-count suffix, where the kept prefix is the
slice at the index found by the 5 percent shrinking search; the kept
prefix (not the whole result) has UTF-8 byte length at most N. -/
theorem C5_truncate_amended (input : JsStr) (N : Nat) (h : N < utf8Len input) :
    truncateLargeText input N
      = input.take (truncEnd input N)
        ++ jstr "\n\n… ("
        ++ jstr (toString (utf8Len input - utf8Len (input.take (truncEnd input N))))
        ++ jstr " bytes truncated)"
    ∧ utf8Len (input.take (truncEnd input N)) ≤ N := by
  constructor
  · unfold truncateLargeText
    rw [if_neg (by omega)]
  · exact truncEnd_le input N

/-- Witness for C5 amended at a concrete over-budget input. -/
theorem C5_truncate_amended_witness :
    10 < utf8Len (List.replicate 12 97)
    ∧ utf8Len ((List.replicate 12 97).take (truncEnd (List.replicate 12 97) 10)) ≤ 10 :=
  ⟨by decide, (C5_truncate_amended (List.replicate 12 97) 10 (by decide)).2⟩

/-- C6 counterexample: truncation is not idempotent.  On twelve ASCII
bytes with budget 10 the first pass returns 35 bytes, so the second pass
truncates again and yields a different string. -/
theorem C6_counterexample :
    truncateLargeText (truncateLargeText (List.replicate 12 97) 10) 10
      ≠ truncateLargeText (List.replicate 12 97) 10 := by
  decide

/-- C6 amended: a second truncation is the identity exactly on results
that fit the budget, which holds in particular whenever the input itself
fits; when the first pass truncated and its appended suffix pushed the
result back over the budget, the second pass truncates again. -/
theorem C6_truncate_idem_amended (input : JsStr) (N : Nat)
    (h : utf8Len (truncateLargeText input N) ≤ N) :
    truncateLargeText (truncateLargeText input N) N = truncateLargeText input N :=
  truncateLargeText_of_le _ N h

/-- Witness for C6 amended at a concrete in-budget input. -/
theorem C6_truncate_idem_amended_witness :
    utf8Len (truncateLargeText (List.replicate 5 97) 10) ≤ 10
    ∧ truncateLargeText (truncateLargeText (List.replicate 5 97) 10) 10
        = truncateLargeText (List.replicate 5 97) 10 :=
  ⟨by decide, C6_truncate_idem_amended (List.replicate 5 97) 10 (by decide)⟩

/-- C8 counterexample: the claim says a finite value below 1000 is
clamped up to 1000, but parseTimeout returns the 60000 default for the
input 500. -/
theorem C8_counterexample :
    parseTimeout (some (some 500)) = 60000 ∧ parseTimeout (some (some 500)) ≠ 1000 := by
  constructor
  · norm_num [parseTimeout]
  · norm_num [parseTimeout]

/-- C8 amended: absent input resolves to the 60000 default, as does any
non-finite or sub-1000 value (not a clamp to 1000); values of at least
1000 are passed through capped at 600000. -/
theorem C8_parseTimeout_amended (n : ℚ) :
    parseTimeout none = 60000
    ∧ parseTimeout (some none) = 60000
    ∧ (n < 1000 → parseTimeout (some (some n)) = 60000)
    ∧ (1000 ≤ n → n ≤ 600000 → parseTimeout (some (some n)) = n)
    ∧ (600000 < n → parseTimeout (some (some n)) = 600000) := by
  refine ⟨rfl, rfl, ?_, ?_, ?_⟩
  · intro h
    simp [parseTimeout, h]
  · intro h1 h2
    simp [parseTimeout, not_lt.mpr h1]
    exact h2
  · intro h
    have h1 : ¬ n < 1000 := by linarith
    simp [parseTimeout, h1]
    exact le_of_lt h

/-- C1: prompt first cancels and releases any existing active query of
the session (the run factors through cancelCurrentPrompt, which drops
the stream handle and aborts an installed controller), and on every
outcome of the race the finally block clears the active-query handle:
the final session has pendingPrompt and abortController null. -/
theorem C1_single_active_query (cfg : PromptConfig) (now : Int) (text : String)
    (s : SessionState) (buf : List TextPiece) (out : PromptOutcome) (sig : Nat → Bool) :
    cancelCurrentPrompt s
      = { s with pendingPrompt := false,
                 abortController := s.abortController.map (fun _ => true) }
    ∧ promptRun cfg now text s buf out sig
        = promptRun cfg now text (cancelCurrentPrompt s) buf out sig
    ∧ (promptRun cfg now text s buf out sig).session.pendingPrompt = false
    ∧ (promptRun cfg now text s buf out sig).session.abortController = none := by
  refine ⟨cancelCurrentPrompt_eq s, ?_, ?_, ?_⟩
  · show promptBody cfg now text (cancelCurrentPrompt s) buf out sig
      = promptBody cfg now text (cancelCurrentPrompt (cancelCurrentPrompt s)) buf out sig
    rw [cancelCurrentPrompt_idem]
  · cases out <;> rfl
  · cases out <;> rfl

/-- C2 counterexample: the claim says the cancelled stop reason is
distinguished from errors by identity or kind, not by string matching on
the message text; but two errors of the same class and name, differing
only in message text, get different stop reasons because isAbortError
falls back to searching the lowercased message for the substring
abort. -/
theorem C2_counterexample :
    (ErrorInfo.mk false "Error" "upstream stream aborted").name
      = (ErrorInfo.mk false "Error" "upstream stream failed").name
    ∧ (promptCatch 16384 (ErrorInfo.mk false "Error" "upstream stream aborted")).1
        = StopReason.cancelled
    ∧ (promptCatch 16384 (ErrorInfo.mk false "Error" "upstream stream failed")).1
        = StopReason.end_turn := by
  decide

/-- String concatenation concatenates the character lists. -/
theorem string_data_append (a b : String) : (a ++ b).data = a.data ++ b.data := rfl

/-- A character of a list-level prefix occurs in the larger list. -/
theorem mem_of_isPrefixOf :
    ∀ {l1 l2 : List Char} {c : Char}, l1.isPrefixOf l2 = true → c ∈ l1 → c ∈ l2 := by
  intro l1
  induction l1 with
  | nil =>
    intro l2 c h hc
    exact absurd hc (List.not_mem_nil c)
  | cons a t ih =>
    intro l2 c h hc
    cases l2 with
    | nil => simp [List.isPrefixOf] at h
    | cons b t2 =>
      simp only [List.isPrefixOf, Bool.and_eq_true, beq_iff_eq] at h
      rcases List.mem_cons.mp hc with hca | hct
      · exact List.mem_cons.mpr (Or.inl (hca.trans h.1))
      · exact List.mem_cons.mpr (Or.inr (ih h.2 hct))

/-- A pattern containing a character absent from the text never occurs
in the text. -/
theorem firstIdx_eq_none_of_not_mem (s pat : String) (c : Char)
    (hc : c ∈ pat.data) (hs : c ∉ s.data) : firstIdx s pat = none := by
  unfold firstIdx
  rw [List.find?_eq_none]
  intro i _
  intro h
  exact hs (List.mem_of_mem_drop (mem_of_isPrefixOf h hc))

/-- Every digit character produced for a remainder below ten is one of
the ten decimal digit characters. -/
theorem digitChar_mem_digits : ∀ m, m < 10 → Nat.digitChar m ∈ ("0123456789").data := by
  decide

/-- Characters produced by the decimal digit accumulator are either from
the seed accumulator or decimal digit characters. -/
theorem toDigitsCore_mem (fuel : Nat) :
    ∀ (n : Nat) (ds : List Char) (c : Char),
      c ∈ Nat.toDigitsCore 10 fuel n ds → c ∈ ds ∨ c ∈ ("0123456789").data := by
  induction fuel with
  | zero =>
    intro n ds c h
    exact Or.inl (by simpa [Nat.toDigitsCore] using h)
  | succ f ih =>
    intro n ds c h
    simp only [Nat.toDigitsCore] at h
    by_cases h0 : n / 10 = 0
    · rw [if_pos h0] at h
      rcases List.mem_cons.mp h with hc | hc
      · exact Or.inr (hc ▸ digitChar_mem_digits (n % 10) (Nat.mod_lt n (by norm_num)))
      · exact Or.inl hc
    · rw [if_neg h0] at h
      rcases ih (n / 10) (Nat.digitChar (n % 10) :: ds) c h with h1 | h2
      · rcases List.mem_cons.mp h1 with hc | hc
        · exact Or.inr (hc ▸ digitChar_mem_digits (n % 10) (Nat.mod_lt n (by norm_num)))
        · exact Or.inl hc
      · exact Or.inr h2

/-- The decimal rendering of a natural number consists of decimal digit
characters only. -/
theorem mem_toString_nat (n : Nat) (c : Char)
    (h : c ∈ (toString n).data) : c ∈ ("0123456789").data := by
  have h2 : c ∈ Nat.toDigitsCore 10 (n + 1) n [] := h
  rcases toDigitsCore_mem (n + 1) n [] c h2 with h1 | h1
  · exact absurd h1 (List.not_mem_nil c)
  · exact h1

/-- A TimeoutError is never classified as an abort error, for every
configured timeout: its name is not AbortError and its lowercased
message (fixed words plus decimal digits) never contains the substring
abort, lacking even the character b. -/
theorem isAbortError_timeout (ms : Nat) : isAbortError (timeoutErrorInfo ms) = false := by
  have hmsg : (timeoutErrorInfo ms).message = "Timed out after " ++ toString ms ++ " ms" := rfl
  have hdata : (lowerStr (timeoutErrorInfo ms).message).data
      = (("Timed out after ").data.map Char.toLower
          ++ (toString ms).data.map Char.toLower)
        ++ (" ms").data.map Char.toLower := by
    rw [hmsg]
    show ((("Timed out after " ++ toString ms ++ " ms")).data).map Char.toLower = _
    rw [string_data_append, string_data_append, List.map_append, List.map_append]
  have hs : ('b' : Char) ∉ (lowerStr (timeoutErrorInfo ms).message).data := by
    rw [hdata]
    intro hmem
    rcases List.mem_append.mp hmem with h12 | h3
    · rcases List.mem_append.mp h12 with h1 | h2
      · exact absurd h1 (by decide)
      · obtain ⟨d, hd, hdeq⟩ := List.mem_map.mp h2
        have hdig := mem_toString_nat ms d hd
        fin_cases hdig <;> exact absurd hdeq (by decide)
    · exact absurd h3 (by decide)
  have hfirst : firstIdx (lowerStr (timeoutErrorInfo ms).message) "abort" = none :=
    firstIdx_eq_none_of_not_mem _ _ 'b' (by decide) hs
  unfold isAbortError strContains
  rw [hfirst, show (timeoutErrorInfo ms).name = "TimeoutError" from rfl]
  decide

/-- The TimeoutError constructed by the timer is an instance of the
TimeoutError class. -/
theorem timeoutErrorInfo_isTimeoutInstance (ms : Nat) :
    (timeoutErrorInfo ms).isTimeoutInstance = true := rfl

/-- C2 amended: for every configuration, a timed-out prompt aborts the
active query, renders the user-visible system-error message (twice, see
C10), and returns end_turn; the cancelled stop reason is returned
exactly when isAbortError accepts the error, which tests the error name
AND falls back to substring matching on the lowercased message text, so
the two cases are distinguished partly by string matching on the
message text; a TimeoutError never passes that test, whatever the
configured timeout. -/
theorem C2_stop_reason_amended (cfg : PromptConfig) (now : Int) (text : String)
    (s : SessionState) (buf : List TextPiece) (sig : Nat → Bool)
    (maxBytes : Nat) (e : ErrorInfo) :
    ((promptCatch maxBytes e).1 = StopReason.cancelled ↔ isAbortError e = true)
    ∧ (promptRun cfg now text s buf PromptOutcome.timeout sig).queryAborted = true
    ∧ (promptRun cfg now text s buf PromptOutcome.timeout sig).updates
        = [sysErrorUpdate cfg.maxToolOutputBytes (timeoutErrorInfo cfg.timeoutMs),
           sysErrorUpdate cfg.maxToolOutputBytes (timeoutErrorInfo cfg.timeoutMs)]
    ∧ (promptRun cfg now text s buf PromptOutcome.timeout sig).stopReason
        = StopReason.end_turn
    ∧ isAbortError (timeoutErrorInfo cfg.timeoutMs) = false := by
  have habort := isAbortError_timeout cfg.timeoutMs
  refine ⟨?_, rfl, ?_, ?_, habort⟩
  · by_cases h : isAbortError e
    · simp [promptCatch, h]
    · simp [promptCatch, h]
  · simp [promptRun, promptBody, promptCatch, habort, timeoutErrorInfo_isTimeoutInstance]
  · simp [promptRun, promptBody, promptCatch, habort, timeoutErrorInfo_isTimeoutInstance]

/-- C3: the reaper never evicts a session with an active query, and on a
sweep every session with no active query idle strictly longer than the
TTL is flushed and then removed; a sweep treats list parts
independently. -/
theorem C3_reaper (ttl now : Int) (id : String) (s : SessionState)
    (xs ys : List (String × SessionState)) :
    (isActiveQuery s = true → gcShouldRemove ttl now s = false)
    ∧ (isActiveQuery s = true →
        GcAction.removeSession id ∉ gcSweepActions ttl now [(id, s)])
    ∧ (isActiveQuery s = false → ttl < now - s.lastActiveAt →
        gcSweepActions ttl now [(id, s)]
          = [GcAction.flushBuffer id, GcAction.removeSession id])
    ∧ gcSweepActions ttl now (xs ++ ys)
        = gcSweepActions ttl now xs ++ gcSweepActions ttl now ys := by
  refine ⟨?_, ?_, ?_, ?_⟩
  · intro h
    simp [gcShouldRemove, h]
  · intro h
    have h1 : gcShouldRemove ttl now s = false := by simp [gcShouldRemove, h]
    simp [gcSweepActions, h1]
  · intro h1 h2
    have h3 : gcShouldRemove ttl now s = true := by
      simp [gcShouldRemove, h1, h2]
    simp [gcSweepActions, h3]
  · simp [gcSweepActions]

/-- Witness for C3 on one active and one idle session. -/
theorem C3_reaper_witness :
    GcAction.removeSession "a" ∉
      gcSweepActions 1000 5000
        [("a", SessionState.mk true none none PermissionMode.default 0 0 0)]
    ∧ gcSweepActions 1000 5000
        [("b", SessionState.mk false none none PermissionMode.default 0 0 0)]
        = [GcAction.flushBuffer "b", GcAction.removeSession "b"] :=
  ⟨(C3_reaper 1000 5000 "a" (SessionState.mk true none none PermissionMode.default 0 0 0)
      [] []).2.1 (by decide),
   (C3_reaper 1000 5000 "b" (SessionState.mk false none none PermissionMode.default 0 0 0)
      [] []).2.2.1 (by decide) (by decide)⟩

/-- Helper for C4: the drain under an abort signal equals the drain of
the prefix before the first observed firing, run without a signal. -/
theorem drainLoop_take (maxBytes : Nat) (sig : Nat → Bool) :
    ∀ (msgs : List ClaudeMsg) (i : Nat) (st : StreamState),
      drainLoop maxBytes sig i msgs st
        = drainLoop maxBytes (fun _ => false) i
            (msgs.take (stopIdx sig i msgs.length)) st := by
  intro msgs
  induction msgs with
  | nil => intro i st; rfl
  | cons m rest ih =>
    intro i st
    by_cases h : sig i
    · simp [drainLoop, stopIdx, h]
    · simp [drainLoop, stopIdx, h]
      exact ih (i + 1) (stepMessage maxBytes st m)

/-- C4 counterexample: the claim says no further protocol updates are
emitted once the signal is observed fired, but when the signal is
already fired before the first element and text sits in the buffer, the
final flush after the loop break still emits one agent_message_chunk
update (while the message itself is indeed not processed). -/
theorem C4_counterexample :
    (processMessageStream 16384 (fun _ => true)
        [ClaudeMsg.mk (MsgKind.textMsg (some "x")) none]
        (SessionState.mk false (some true) none PermissionMode.default 0 0 0)
        [TextPiece.raw "hi"]).updates
      = [ProtocolUpdate.agentMessageChunk [TextPiece.raw "hi"]]
    ∧ (processMessageStream 16384 (fun _ => true)
        [ClaudeMsg.mk (MsgKind.textMsg (some "x")) none]
        (SessionState.mk false (some true) none PermissionMode.default 0 0 0)
        [TextPiece.raw "hi"]).session.messageCount = 0 := by
  decide

/-- C4 amended: the cancellation signal is read before each element and,
once observed fired, the loop stops immediately: the whole run equals
the run over the prefix strictly before the first observed firing, so no
element past that point is processed and no update derives from one; the
only update still emitted afterwards is the single final flush of text
buffered earlier, which the unsignalled prefix run performs as well. -/
theorem C4_stream_cancellation_amended (maxBytes : Nat) (sig : Nat → Bool)
    (msgs : List ClaudeMsg) (s : SessionState) (buf : List TextPiece) :
    processMessageStream maxBytes sig msgs s buf
      = processMessageStream maxBytes (fun _ => false)
          (msgs.take (stopIdx sig 0 msgs.length)) s buf := by
  unfold processMessageStream
  exact congrArg flushTextBufferSt (drainLoop_take maxBytes sig msgs 0 _)

/-- C7: when the prompt text contains one recognized marker and no
other, detection returns its mode; the switch branch then installs the
mode and buffers the switch notification, except for a bypass request
with bypass disabled, which leaves the mode unchanged and buffers the
blocked notice. -/
theorem C7_permission_marker (text : String) (m : PermissionMode) (s : SessionState) (b : Bool)
    (h1 : strContains text (markerOf m) = true)
    (h2 : ∀ m2 : PermissionMode, m2 ≠ m → strContains text (markerOf m2) = false) :
    detectPermissionMode text = some m
    ∧ (m = PermissionMode.bypassPermissions → b = false →
        applyModeSwitch b m s = (s, [TextPiece.tpl "bypass_blocked" []]))
    ∧ (m ≠ PermissionMode.bypassPermissions ∨ b = true →
        applyModeSwitch b m s
          = ({ s with permissionMode := m },
             [TextPiece.tpl "mode_switched" [jstr (modeName m)]])) := by
  have hh : ∀ m2, m2 ≠ m → firstIdx text (markerOf m2) = none := by
    intro m2 hne
    have h3 := h2 m2 hne
    cases hfi : firstIdx text (markerOf m2) with
    | none => rfl
    | some i => simp [strContains, hfi] at h3
  obtain ⟨i, hi⟩ := Option.isSome_iff_exists.mp (by simpa [strContains] using h1)
  refine ⟨?_, ?_, ?_⟩
  · cases m with
    | default =>
      have hA := hh PermissionMode.acceptEdits (by decide)
      have hB := hh PermissionMode.bypassPermissions (by decide)
      have hP := hh PermissionMode.plan (by decide)
      simp [detectPermissionMode, markerList, hA, hB, hP, hi]
    | acceptEdits =>
      have hD := hh PermissionMode.default (by decide)
      have hB := hh PermissionMode.bypassPermissions (by decide)
      have hP := hh PermissionMode.plan (by decide)
      simp [detectPermissionMode, markerList, hD, hB, hP, hi]
    | bypassPermissions =>
      have hD := hh PermissionMode.default (by decide)
      have hA := hh PermissionMode.acceptEdits (by decide)
      have hP := hh PermissionMode.plan (by decide)
      simp [detectPermissionMode, markerList, hD, hA, hP, hi]
    | plan =>
      have hD := hh PermissionMode.default (by decide)
      have hA := hh PermissionMode.acceptEdits (by decide)
      have hB := hh PermissionMode.bypassPermissions (by decide)
      simp [detectPermissionMode, markerList, hD, hA, hB, hi]
  · intro hm hb
    subst hm
    subst hb
    simp [applyModeSwitch]
  · intro hor
    rcases hor with hne | hb
    · simp [applyModeSwitch, hne]
    · subst hb
      simp [applyModeSwitch]

/-- Witness for C7 on a prompt carrying exactly the plan marker. -/
theorem C7_permission_marker_witness :
    strContains "[ACP:PERMISSION:PLAN] please refactor"
        (markerOf PermissionMode.plan) = true
    ∧ detectPermissionMode "[ACP:PERMISSION:PLAN] please refactor"
        = some PermissionMode.plan :=
  ⟨by decide,
   (C7_permission_marker "[ACP:PERMISSION:PLAN] please refactor" PermissionMode.plan
      (SessionState.mk false none none PermissionMode.default 0 0 0) true
      (by decide)
      (by intro m2 hne; cases m2 <;> first | exact absurd rfl hne | decide)).1⟩

/-- C9: the code diverges from the claim on the error path of the race.
When the query settles with a non-timeout error before the timer fires,
clearTimeout is never reached (it sits on the success path only), so the
losing timer is not cleaned up; the success path does clear the timer,
and when the timer fires first the losing query is aborted. -/
theorem C9_race_cleanup :
    (promptRun (PromptConfig.mk false true 60000 16384) 0 ""
        (SessionState.mk false none none PermissionMode.default 0 0 0) []
        (PromptOutcome.failure (ErrorInfo.mk false "Error" "boom"))
        (fun _ => false)).timerCleared = false
    ∧ (promptRun (PromptConfig.mk false true 60000 16384) 0 ""
        (SessionState.mk false none none PermissionMode.default 0 0 0) []
        (PromptOutcome.success []) (fun _ => false)).timerCleared = true
    ∧ (promptRun (PromptConfig.mk false true 60000 16384) 0 ""
        (SessionState.mk false none none PermissionMode.default 0 0 0) []
        PromptOutcome.timeout (fun _ => false)).queryAborted = true := by
  decide

/-- C10: on a timeout the rendered system-error message is emitted twice
before prompt returns end_turn: once in the TimeoutError branch and once
in the generic error path, because isAbortError does not classify a
TimeoutError (name TimeoutError, message without the substring abort) as
an abort error. -/
theorem C10_timeout_double_error :
    (promptRun (PromptConfig.mk false true 60000 16384) 0 ""
        (SessionState.mk false none none PermissionMode.default 0 0 0) []
        PromptOutcome.timeout (fun _ => false)).updates
      = [sysErrorUpdate 16384 (timeoutErrorInfo 60000),
         sysErrorUpdate 16384 (timeoutErrorInfo 60000)]
    ∧ (promptRun (PromptConfig.mk false true 60000 16384) 0 ""
        (SessionState.mk false none none PermissionMode.default 0 0 0) []
        PromptOutcome.timeout (fun _ => false)).stopReason = StopReason.end_turn
    ∧ isAbortError (timeoutErrorInfo 60000) = false := by
  decide

/-- Witness for C8 amended on the three numeric regimes. -/
theorem C8_parseTimeout_amended_witness :
    ((500 : ℚ) < 1000 ∧ parseTimeout (some (some 500)) = 60000)
    ∧ ((1000 : ℚ) ≤ 2000 ∧ (2000 : ℚ) ≤ 600000 ∧ parseTimeout (some (some 2000)) = 2000)
    ∧ ((600000 : ℚ) < 700000 ∧ parseTimeout (some (some 700000)) = 600000) :=
  ⟨⟨by norm_num, (C8_parseTimeout_amended 500).2.2.1 (by norm_num)⟩,
   ⟨by norm_num, by norm_num, (C8_parseTimeout_amended 2000).2.2.2.1 (by norm_num) (by norm_num)⟩,
   ⟨by norm_num, (C8_parseTimeout_amended 700000).2.2.2.2 (by norm_num)⟩⟩

end ZedClaudeAcp
